import Mathlib

/-!
# Verification of the fal.ai MCP/HTTP image-editing adapter

Shallow embedding of `src/fal_ai_mcp_server.py`: a Python value model
(JSON-like values with Python truthiness), the four Remote Operation Client
methods of `FalAIImageEditor`, the MCP tool dispatch `handle_call_tool`, and
the Flask routes of `create_http_app`.

Modelling conventions:
* A Python/JSON value is `Fal.Value`; an absent dictionary entry read via
  `dict.get` yields `Value.vNone` (Python `None`).
* Python floats are modelled as rationals (`Rat`): the source performs no
  float arithmetic, it only passes literals (`0.8`, `3.5`) and converted
  inputs through to the JSON payload, so exact representation is irrelevant.
* The outbound HTTP POST is modelled by a `VendorOutcome` parameter: either
  the transport raises (with some exception message) or the vendor responds
  with a status code, a raw body text, and the outcome of `response.json()`
  (`Except`: parsing can raise).  Each client method also returns the
  `VendorCall` it issued (URL, headers, JSON payload), and the front-ends
  return the list of vendor calls made, so that "no vendor call is made"
  claims are expressible.
* Exception *messages* produced by the Python runtime (KeyError text,
  float-conversion text, ...) are not part of the source file; the model
  uses fixed plausible strings for them.  Claims depend only on which
  inputs raise, not on runtime message spelling.
* `handle_call_tool` wraps its whole body in `try/except Exception`; in this
  embedding the dispatch body itself is total, so the outermost handler is
  modelled by an oracle `exn : Option String` injecting an unexpected
  runtime exception (`none` = normal execution).
-/

namespace Fal

/-- A Python/JSON value as it flows through the adapter. -/
inductive Value where
  | vNone : Value
  | vBool : Bool → Value
  | vInt : Int → Value
  | vRat : Rat → Value
  | vStr : String → Value
  | vList : List Value → Value
  | vDict : List (String × Value) → Value

/-- Python truthiness (`bool(x)`): `None`, `False`, `0`, `0.0`, `""`, `[]`,
`{}` are falsy, everything else truthy. -/
def truthy : Value → Bool
  | .vNone => false
  | .vBool b => b
  | .vInt n => decide (n ≠ 0)
  | .vRat q => decide (q ≠ 0)
  | .vStr s => decide (s ≠ "")
  | .vList xs => !xs.isEmpty
  | .vDict kvs => !kvs.isEmpty

/-- `d.get(k)`: the stored value, or `None` when the key is absent. -/
def dictGet (d : List (String × Value)) (k : String) : Value :=
  match d.lookup k with
  | some v => v
  | none => .vNone

/-- `d.get(k, dflt)`: the stored value, or `dflt` when the key is absent. -/
def dictGetD (d : List (String × Value)) (k : String) (dflt : Value) : Value :=
  match d.lookup k with
  | some v => v
  | none => dflt

mutual

/-- Python `repr` of a value (float rendering approximated; `repr` text is
runtime behaviour, not part of the source, and no claim depends on it). -/
def pyRepr : Value → String
  | .vNone => "None"
  | .vBool true => "True"
  | .vBool false => "False"
  | .vInt n => toString n
  | .vRat q => toString q
  | .vStr s => "\x27" ++ s ++ "\x27"
  | .vList xs => "[" ++ pyReprList xs ++ "]"
  | .vDict kvs => "\x7b" ++ pyReprDict kvs ++ "\x7d"

/-- Comma-separated `repr`s of list elements. -/
def pyReprList : List Value → String
  | [] => ""
  | [x] => pyRepr x
  | x :: xs => pyRepr x ++ ", " ++ pyReprList xs

/-- Comma-separated `repr`s of dictionary entries. -/
def pyReprDict : List (String × Value) → String
  | [] => ""
  | [(k, v)] => "\x27" ++ k ++ "\x27: " ++ pyRepr v
  | (k, v) :: kvs => "\x27" ++ k ++ "\x27: " ++ pyRepr v ++ ", " ++ pyReprDict kvs

end

/-- Python `str` of a value, as used by f-string interpolation: a string
renders as itself, every other value as its `repr`. -/
def pyStr : Value → String
  | .vStr s => s
  | v => pyRepr v

/-- Numeric value of a nonempty digit string. -/
def natOfDigits (cs : List Char) : Nat :=
  cs.foldl (fun a c => a * 10 + (c.toNat - 48)) 0

/-- Parse a decimal literal (optional sign, digits, optional fractional
part) as a rational; `none` when `float(s)` would raise.  Models the core
of Python float parsing (whitespace/exponent/inf forms omitted: no claim
exercises them). -/
def parseDecimal? (s : String) : Option Rat :=
  let cs := s.toList
  let signed : Rat × List Char :=
    match cs with
    | '-' :: rest => (-1, rest)
    | '+' :: rest => (1, rest)
    | _ => (1, cs)
  let sign := signed.1
  let body := signed.2
  let intPart := body.takeWhile Char.isDigit
  let rest := body.dropWhile Char.isDigit
  match rest with
  | [] =>
    if intPart.isEmpty then none
    else some (sign * (natOfDigits intPart : Rat))
  | '.' :: frac =>
    if frac.all Char.isDigit && !(intPart.isEmpty && frac.isEmpty) then
      some (sign * ((natOfDigits intPart : Rat) +
        (natOfDigits frac : Rat) / ((10 : Rat) ^ frac.length)))
    else none
  | _ => none

/-- Parse an integer literal (optional sign, digits only); `none` when
`int(s)` would raise. -/
def parseInt? (s : String) : Option Int :=
  let cs := s.toList
  let signed : Int × List Char :=
    match cs with
    | '-' :: rest => (-1, rest)
    | '+' :: rest => (1, rest)
    | _ => (1, cs)
  if signed.2.isEmpty || !signed.2.all Char.isDigit then none
  else some (signed.1 * (natOfDigits signed.2 : Int))

/-- Python `float(x)`: numbers and booleans convert, strings are parsed,
everything else raises `TypeError`. -/
def pyFloat : Value → Except String Rat
  | .vInt n => .ok (n : Rat)
  | .vRat q => .ok q
  | .vBool b => .ok (if b then 1 else 0)
  | .vStr s =>
    match parseDecimal? s with
    | some q => .ok q
    | none => .error ("could not convert string to float: " ++ s)
  | _ => .error "float() argument must be a string or a real number"

/-- Python `int(x)`: integers and booleans convert, floats truncate toward
zero, strings are parsed (digits only), everything else raises. -/
def pyInt : Value → Except String Int
  | .vInt n => .ok n
  | .vBool b => .ok (if b then 1 else 0)
  | .vRat q => .ok (Int.tdiv q.num (q.den : Int))
  | .vStr s =>
    match parseInt? s with
    | some n => .ok n
    | none => .error ("invalid literal for int() with base 10: " ++ s)
  | _ => .error "int() argument must be a string or a number"

/-- Python subscripting `v[k]` with a string key: succeeds on a dictionary
holding the key, raises (`KeyError`/`TypeError`) otherwise. -/
def pyGetKey (v : Value) (k : String) : Except String Value :=
  match v with
  | .vDict kvs =>
    match kvs.lookup k with
    | some x => .ok x
    | none => .error ("KeyError: " ++ k)
  | _ => .error ("TypeError: value is not subscriptable with key " ++ k)

/-- Python subscripting `v[i]` with an integer index into a list: raises
(`IndexError`/`TypeError`) when out of range or not a list. -/
def pyGetIdx (v : Value) (i : Nat) : Except String Value :=
  match v with
  | .vList xs =>
    match xs.get? i with
    | some x => .ok x
    | none => .error "IndexError: list index out of range"
  | _ => .error "TypeError: value is not subscriptable with an integer index"

/-- Outcome of the one outbound `client.post(...)` of a client method:
either the transport (or anything before the status check) raises, or a
response arrives with a status code, the raw body text (`response.text`),
and the result of `response.json()` (which itself can raise). -/
inductive VendorOutcome where
  | raises : String → VendorOutcome
  | responds : Nat → String → Except String Value → VendorOutcome

/-- Record of one outbound vendor call: URL, headers and JSON payload. -/
structure VendorCall where
  url : String
  headers : List (String × String)
  payload : List (String × Value)

/-- The normalized Operation Result dictionary built by every client
method: `{"success": True, "image_url": ..., "model": ..., "prompt": ...}`
or `{"success": False, "error": ...}`. -/
inductive OpResult where
  | success : Value → String → Value → OpResult
  | failure : String → OpResult

/-- `result["success"]` of an Operation Result. -/
def OpResult.isSuccess : OpResult → Bool
  | .success _ _ _ => true
  | .failure _ => false

/-- The JSON dictionary a client method returns, as rendered by `jsonify`. -/
def resultJson : OpResult → Value
  | .success u m p =>
    .vDict [("success", .vBool true), ("image_url", u), ("model", .vStr m),
      ("prompt", p)]
  | .failure e => .vDict [("success", .vBool false), ("error", .vStr e)]

/-- `self.base_url`. -/
def base_url : String := "https://queue.fal.run"

/-- The `Authorization`/`Content-Type` headers built by every client method. -/
def authHeaders (api_key : String) : List (String × String) :=
  [("Authorization", "Key " ++ api_key), ("Content-Type", "application/json")]

/-- `result["images"][0]["url"]`: the FLUX response extraction. -/
def fluxExtract (v : Value) : Except String Value := do
  let imgs ← pyGetKey v "images"
  let first ← pyGetIdx imgs 0
  pyGetKey first "url"

/-- `result["image"]["url"]`: the response extraction shared by the Qwen,
background-removal and upscale methods. -/
def imageExtract (v : Value) : Except String Value := do
  let img ← pyGetKey v "image"
  pyGetKey img "url"

/-- `FalAIImageEditor.edit_image_flux`: posts to the FLUX endpoint; on 200
extracts `images[0].url` and returns a success dictionary with model label
`"FLUX Dev"` and the original prompt; on non-200 returns a failure embedding
status code and body text; any exception is caught and returned as a
failure with the exception message.  Also returns the issued call. -/
def FalAIImageEditor.edit_image_flux (api_key : String) (vendor : VendorOutcome)
    (image_url prompt strength : Value) : OpResult × VendorCall :=
  let call : VendorCall :=
    { url := base_url ++ "/fal-ai/flux/dev/image-to-image"
      headers := authHeaders api_key
      payload := [("image_url", image_url), ("prompt", prompt),
        ("strength", strength), ("num_inference_steps", .vInt 28),
        ("guidance_scale", .vRat (7 / 2))] }
  let result : OpResult :=
    match vendor with
    | .raises e => .failure e
    | .responds status text json =>
      if status = 200 then
        match json with
        | .error e => .failure e
        | .ok v =>
          match fluxExtract v with
          | .error e => .failure e
          | .ok u => .success u "FLUX Dev" prompt
      else
        .failure ("API request failed: " ++ toString status ++ " " ++ text)
  (result, call)

/-- `FalAIImageEditor.edit_image_qwen`: as for FLUX but posting to the Qwen
endpoint, extracting `image.url`, with model label `"Qwen Image Edit"`. -/
def FalAIImageEditor.edit_image_qwen (api_key : String) (vendor : VendorOutcome)
    (image_url prompt : Value) : OpResult × VendorCall :=
  let call : VendorCall :=
    { url := base_url ++ "/fal-ai/qwen-image-edit"
      headers := authHeaders api_key
      payload := [("image_url", image_url), ("prompt", prompt)] }
  let result : OpResult :=
    match vendor with
    | .raises e => .failure e
    | .responds status text json =>
      if status = 200 then
        match json with
        | .error e => .failure e
        | .ok v =>
          match imageExtract v with
          | .error e => .failure e
          | .ok u => .success u "Qwen Image Edit" prompt
      else
        .failure ("API request failed: " ++ toString status ++ " " ++ text)
  (result, call)

/-- `FalAIImageEditor.remove_background`: posts to the rembg endpoint,
extracts `image.url`, model label `"Background Removal"`, synthesized
description `"Remove background"`. -/
def FalAIImageEditor.remove_background (api_key : String) (vendor : VendorOutcome)
    (image_url : Value) : OpResult × VendorCall :=
  let call : VendorCall :=
    { url := base_url ++ "/fal-ai/imageutils/rembg"
      headers := authHeaders api_key
      payload := [("image_url", image_url)] }
  let result : OpResult :=
    match vendor with
    | .raises e => .failure e
    | .responds status text json =>
      if status = 200 then
        match json with
        | .error e => .failure e
        | .ok v =>
          match imageExtract v with
          | .error e => .failure e
          | .ok u => .success u "Background Removal" (.vStr "Remove background")
      else
        .failure ("API request failed: " ++ toString status ++ " " ++ text)
  (result, call)

/-- `FalAIImageEditor.upscale_image`: posts to the ESRGAN endpoint, extracts
`image.url`, model label `"ESRGAN Upscaler"`, synthesized description
`"Upscale {scale}x"`. -/
def FalAIImageEditor.upscale_image (api_key : String) (vendor : VendorOutcome)
    (image_url scale : Value) : OpResult × VendorCall :=
  let call : VendorCall :=
    { url := base_url ++ "/fal-ai/esrgan"
      headers := authHeaders api_key
      payload := [("image_url", image_url), ("scale", scale)] }
  let result : OpResult :=
    match vendor with
    | .raises e => .failure e
    | .responds status text json =>
      if status = 200 then
        match json with
        | .error e => .failure e
        | .ok v =>
          match imageExtract v with
          | .error e => .failure e
          | .ok u =>
            .success u "ESRGAN Upscaler" (.vStr ("Upscale " ++ pyStr scale ++ "x"))
      else
        .failure ("API request failed: " ++ toString status ++ " " ++ text)
  (result, call)

/-- A `CallToolResult`: its single text content and the `isError` flag. -/
structure CallToolResult where
  text : String
  isError : Bool

/-- The "Format response" block at the end of `handle_call_tool`: renders a
success dictionary as the multi-line checkmark block and a failure as the
single cross-marker line, with `isError = not result["success"]`. -/
def renderResult : OpResult → CallToolResult
  | .success u m p =>
    { text := "✅ Image edited successfully!\n\n**Model:** " ++ m ++
        "\n**Prompt:** " ++ pyStr p ++ "\n**Result:** " ++ pyStr u
      isError := false }
  | .failure e =>
    { text := "❌ Error editing image: " ++ e, isError := true }

/-- `handle_call_tool(name, arguments)`.  `exn` is the oracle for the
outermost `try/except Exception` wrapper: `some e` means an unexpected
runtime exception with message `e` was raised somewhere in the `try` block
(the dispatch body itself is total in this embedding), `none` is normal
execution.  Returns the result together with the list of Remote Operation
Client calls issued. -/
def handle_call_tool (api_key : String) (vendor : VendorOutcome)
    (exn : Option String) (name : String) (arguments : List (String × Value)) :
    CallToolResult × List VendorCall :=
  match exn with
  | some e => ({ text := "Internal error: " ++ e, isError := true }, [])
  | none =>
    if name = "edit_image_flux" then
      let image_url := dictGet arguments "image_url"
      let prompt := dictGet arguments "prompt"
      let strength := dictGetD arguments "strength" (.vRat (4 / 5))
      if !truthy image_url || !truthy prompt then
        ({ text := "Error: image_url and prompt are required", isError := true }, [])
      else
        let rc := FalAIImageEditor.edit_image_flux api_key vendor image_url prompt strength
        (renderResult rc.1, [rc.2])
    else if name = "edit_image_qwen" then
      let image_url := dictGet arguments "image_url"
      let prompt := dictGet arguments "prompt"
      if !truthy image_url || !truthy prompt then
        ({ text := "Error: image_url and prompt are required", isError := true }, [])
      else
        let rc := FalAIImageEditor.edit_image_qwen api_key vendor image_url prompt
        (renderResult rc.1, [rc.2])
    else if name = "remove_background" then
      let image_url := dictGet arguments "image_url"
      if !truthy image_url then
        ({ text := "Error: image_url is required", isError := true }, [])
      else
        let rc := FalAIImageEditor.remove_background api_key vendor image_url
        (renderResult rc.1, [rc.2])
    else if name = "upscale_image" then
      let image_url := dictGet arguments "image_url"
      let scale := dictGetD arguments "scale" (.vInt 2)
      if !truthy image_url then
        ({ text := "Error: image_url is required", isError := true }, [])
      else
        let rc := FalAIImageEditor.upscale_image api_key vendor image_url scale
        (renderResult rc.1, [rc.2])
    else
      ({ text := "Error: Unknown tool \x27" ++ name ++ "\x27", isError := true }, [])

/-- An HTTP response of the Flask app: status code and JSON body. -/
structure HttpResponse where
  status : Nat
  body : Value

/- The Flask routes are modelled as `Except String ...`: `.error e` means
the route function raised an uncaught exception with message `e` (escaping
to the web framework).  `reqBody = none` models a malformed or absent JSON
body (`request.get_json(force=True, silent=True)` returned `None`, replaced
by the empty dictionary via `or`). -/

/-- `create_http_app` route `GET /health`: always 200 with a fixed body,
ignoring the API key and issuing no vendor call. -/
def create_http_app.health (api_key : String) : HttpResponse × List VendorCall :=
  ({ status := 200
     body := .vDict [("ok", .vBool true), ("service", .vStr "fal-ai-mcp-http")] },
   [])

/-- `create_http_app` route `POST /edit/flux`: reads `image_url`, `prompt`,
converts `strength` with `float(...)` (before validation; a failed
conversion raises out of the route), returns 400 when `image_url` or
`prompt` is missing/falsy, otherwise calls the client and returns its JSON
with 200 on success and 500 on failure. -/
def create_http_app.edit_flux (api_key : String) (vendor : VendorOutcome)
    (reqBody : Option (List (String × Value))) :
    Except String (HttpResponse × List VendorCall) :=
  let data := reqBody.getD []
  let image_url := dictGet data "image_url"
  let prompt := dictGet data "prompt"
  match pyFloat (dictGetD data "strength" (.vRat (4 / 5))) with
  | .error e => .error e
  | .ok strength =>
    if !truthy image_url || !truthy prompt then
      .ok ({ status := 400
             body := .vDict [("success", .vBool false),
               ("error", .vStr "image_url and prompt are required")] }, [])
    else
      let rc := FalAIImageEditor.edit_image_flux api_key vendor image_url prompt
        (.vRat strength)
      .ok ({ status := if rc.1.isSuccess then 200 else 500
             body := resultJson rc.1 }, [rc.2])

/-- `create_http_app` route `POST /edit/qwen`. -/
def create_http_app.edit_qwen (api_key : String) (vendor : VendorOutcome)
    (reqBody : Option (List (String × Value))) :
    Except String (HttpResponse × List VendorCall) :=
  let data := reqBody.getD []
  let image_url := dictGet data "image_url"
  let prompt := dictGet data "prompt"
  if !truthy image_url || !truthy prompt then
    .ok ({ status := 400
           body := .vDict [("success", .vBool false),
             ("error", .vStr "image_url and prompt are required")] }, [])
  else
    let rc := FalAIImageEditor.edit_image_qwen api_key vendor image_url prompt
    .ok ({ status := if rc.1.isSuccess then 200 else 500
           body := resultJson rc.1 }, [rc.2])

/-- `create_http_app` route `POST /remove-bg`. -/
def create_http_app.remove_bg (api_key : String) (vendor : VendorOutcome)
    (reqBody : Option (List (String × Value))) :
    Except String (HttpResponse × List VendorCall) :=
  let data := reqBody.getD []
  let image_url := dictGet data "image_url"
  if !truthy image_url then
    .ok ({ status := 400
           body := .vDict [("success", .vBool false),
             ("error", .vStr "image_url is required")] }, [])
  else
    let rc := FalAIImageEditor.remove_background api_key vendor image_url
    .ok ({ status := if rc.1.isSuccess then 200 else 500
           body := resultJson rc.1 }, [rc.2])

/-- `create_http_app` route `POST /upscale`: converts `scale` with
`int(...)` (before validation; a failed conversion raises out of the
route). -/
def create_http_app.upscale (api_key : String) (vendor : VendorOutcome)
    (reqBody : Option (List (String × Value))) :
    Except String (HttpResponse × List VendorCall) :=
  let data := reqBody.getD []
  let image_url := dictGet data "image_url"
  match pyInt (dictGetD data "scale" (.vInt 2)) with
  | .error e => .error e
  | .ok scale =>
    if !truthy image_url then
      .ok ({ status := 400
             body := .vDict [("success", .vBool false),
               ("error", .vStr "image_url is required")] }, [])
    else
      let rc := FalAIImageEditor.upscale_image api_key vendor image_url (.vInt scale)
      .ok ({ status := if rc.1.isSuccess then 200 else 500
             body := resultJson rc.1 }, [rc.2])

/-- `true` exactly when an `Except` computation returned normally. -/
def exceptOk {α : Type} : Except String α → Bool
  | .ok _ => true
  | .error _ => false

/-- C1: For each of the four client operations, a vendor response with HTTP
200 and the documented field shape (`images[0].url` for FLUX, `image.url`
for the other three, possibly with further entries and list elements)
yields `Success` with exactly the vendor-provided URL, the operation's
fixed model label, and the original prompt — or the synthesized
description `"Remove background"` / `"Upscale {scale}x"`. -/
theorem C1_success_envelope (key text : String) (u : Value)
    (extraU extraB : List (String × Value)) (rest : List Value)
    (image_url prompt strength : Value) (s : Int) :
    (FalAIImageEditor.edit_image_flux key
        (.responds 200 text (.ok (.vDict (("images",
          .vList (.vDict (("url", u) :: extraU) :: rest)) :: extraB))))
        image_url prompt strength).1
      = .success u "FLUX Dev" prompt
  ∧ (FalAIImageEditor.edit_image_qwen key
        (.responds 200 text (.ok (.vDict (("image",
          .vDict (("url", u) :: extraU)) :: extraB))))
        image_url prompt).1
      = .success u "Qwen Image Edit" prompt
  ∧ (FalAIImageEditor.remove_background key
        (.responds 200 text (.ok (.vDict (("image",
          .vDict (("url", u) :: extraU)) :: extraB))))
        image_url).1
      = .success u "Background Removal" (.vStr "Remove background")
  ∧ (FalAIImageEditor.upscale_image key
        (.responds 200 text (.ok (.vDict (("image",
          .vDict (("url", u) :: extraU)) :: extraB))))
        image_url (.vInt s)).1
      = .success u "ESRGAN Upscaler" (.vStr ("Upscale " ++ toString s ++ "x")) := by
  refine ⟨?_, ?_, ?_, ?_⟩ <;>
    simp [FalAIImageEditor.edit_image_flux, FalAIImageEditor.edit_image_qwen,
      FalAIImageEditor.remove_background, FalAIImageEditor.upscale_image,
      fluxExtract, imageExtract, pyGetKey, pyGetIdx, List.lookup, pyStr, pyRepr,
      Bind.bind, Except.bind]

/-- C2: For each of the four client operations, any non-200 vendor response
yields `Failure` with the exact message built by the code, which contains
both the numeric status code and the raw response body text. -/
theorem C2_non200_failure (key text : String) (status : Nat) (h : status ≠ 200)
    (json : Except String Value) (image_url prompt strength scale : Value) :
    ((FalAIImageEditor.edit_image_flux key (.responds status text json)
        image_url prompt strength).1
      = .failure ("API request failed: " ++ toString status ++ " " ++ text))
  ∧ ((FalAIImageEditor.edit_image_qwen key (.responds status text json)
        image_url prompt).1
      = .failure ("API request failed: " ++ toString status ++ " " ++ text))
  ∧ ((FalAIImageEditor.remove_background key (.responds status text json)
        image_url).1
      = .failure ("API request failed: " ++ toString status ++ " " ++ text))
  ∧ ((FalAIImageEditor.upscale_image key (.responds status text json)
        image_url scale).1
      = .failure ("API request failed: " ++ toString status ++ " " ++ text))
  ∧ (∃ a b, "API request failed: " ++ toString status ++ " " ++ text
      = a ++ toString status ++ b)
  ∧ (∃ a b, "API request failed: " ++ toString status ++ " " ++ text
      = a ++ text ++ b) := by
  refine ⟨?_, ?_, ?_, ?_,
    ⟨"API request failed: ", " " ++ text, ?_⟩,
    ⟨"API request failed: " ++ toString status ++ " ", "", ?_⟩⟩ <;>
    simp [FalAIImageEditor.edit_image_flux, FalAIImageEditor.edit_image_qwen,
      FalAIImageEditor.remove_background, FalAIImageEditor.upscale_image, h,
      String.append_assoc]

/-- C2 witness: instantiated at status 404 with body text `"boom"`. -/
theorem C2_non200_failure_witness :
    ((FalAIImageEditor.edit_image_flux "k" (.responds 404 "boom" (.ok .vNone))
        (.vStr "i") (.vStr "p") (.vRat (4 / 5))).1
      = .failure ("API request failed: " ++ toString (404 : Nat) ++ " " ++ "boom"))
  ∧ ((FalAIImageEditor.edit_image_qwen "k" (.responds 404 "boom" (.ok .vNone))
        (.vStr "i") (.vStr "p")).1
      = .failure ("API request failed: " ++ toString (404 : Nat) ++ " " ++ "boom"))
  ∧ ((FalAIImageEditor.remove_background "k" (.responds 404 "boom" (.ok .vNone))
        (.vStr "i")).1
      = .failure ("API request failed: " ++ toString (404 : Nat) ++ " " ++ "boom"))
  ∧ ((FalAIImageEditor.upscale_image "k" (.responds 404 "boom" (.ok .vNone))
        (.vStr "i") (.vInt 2)).1
      = .failure ("API request failed: " ++ toString (404 : Nat) ++ " " ++ "boom"))
  ∧ (∃ a b, "API request failed: " ++ toString (404 : Nat) ++ " " ++ "boom"
      = a ++ toString (404 : Nat) ++ b)
  ∧ (∃ a b, "API request failed: " ++ toString (404 : Nat) ++ " " ++ "boom"
      = a ++ "boom" ++ b) :=
  C2_non200_failure "k" "boom" 404 (by decide) (.ok .vNone)
    (.vStr "i") (.vStr "p") (.vRat (4 / 5)) (.vInt 2)

/-- C3: For each of the four client operations: a transport exception, a
body-parsing exception on a 200 response, and a failed field extraction on
a 200 response all yield `Failure` carrying the exception's message; and on
every vendor behaviour the function returns a value (`Success` or
`Failure`) — it never propagates an exception. -/
theorem C3_exception_failure (key m text : String) (vendor : VendorOutcome)
    (image_url prompt strength scale : Value) :
    ((FalAIImageEditor.edit_image_flux key (.raises m)
        image_url prompt strength).1 = .failure m)
  ∧ ((FalAIImageEditor.edit_image_qwen key (.raises m)
        image_url prompt).1 = .failure m)
  ∧ ((FalAIImageEditor.remove_background key (.raises m)
        image_url).1 = .failure m)
  ∧ ((FalAIImageEditor.upscale_image key (.raises m)
        image_url scale).1 = .failure m)
  ∧ ((FalAIImageEditor.edit_image_flux key (.responds 200 text (.error m))
        image_url prompt strength).1 = .failure m)
  ∧ ((FalAIImageEditor.edit_image_qwen key (.responds 200 text (.error m))
        image_url prompt).1 = .failure m)
  ∧ ((FalAIImageEditor.remove_background key (.responds 200 text (.error m))
        image_url).1 = .failure m)
  ∧ ((FalAIImageEditor.upscale_image key (.responds 200 text (.error m))
        image_url scale).1 = .failure m)
  ∧ ((FalAIImageEditor.edit_image_flux key (.responds 200 text (.ok (.vDict [])))
        image_url prompt strength).1 = .failure "KeyError: images")
  ∧ ((FalAIImageEditor.edit_image_qwen key (.responds 200 text (.ok (.vDict [])))
        image_url prompt).1 = .failure "KeyError: image")
  ∧ ((FalAIImageEditor.remove_background key (.responds 200 text (.ok (.vDict [])))
        image_url).1 = .failure "KeyError: image")
  ∧ ((FalAIImageEditor.upscale_image key (.responds 200 text (.ok (.vDict [])))
        image_url scale).1 = .failure "KeyError: image")
  ∧ ((∃ u mo p, (FalAIImageEditor.edit_image_flux key vendor
        image_url prompt strength).1 = .success u mo p)
      ∨ (∃ e, (FalAIImageEditor.edit_image_flux key vendor
        image_url prompt strength).1 = .failure e))
  ∧ ((∃ u mo p, (FalAIImageEditor.edit_image_qwen key vendor
        image_url prompt).1 = .success u mo p)
      ∨ (∃ e, (FalAIImageEditor.edit_image_qwen key vendor
        image_url prompt).1 = .failure e))
  ∧ ((∃ u mo p, (FalAIImageEditor.remove_background key vendor
        image_url).1 = .success u mo p)
      ∨ (∃ e, (FalAIImageEditor.remove_background key vendor
        image_url).1 = .failure e))
  ∧ ((∃ u mo p, (FalAIImageEditor.upscale_image key vendor
        image_url scale).1 = .success u mo p)
      ∨ (∃ e, (FalAIImageEditor.upscale_image key vendor
        image_url scale).1 = .failure e)) := by
  refine ⟨rfl, rfl, rfl, rfl, rfl, rfl, rfl, rfl, rfl, rfl, rfl, rfl,
    ?_, ?_, ?_, ?_⟩
  · cases h : (FalAIImageEditor.edit_image_flux key vendor
        image_url prompt strength).1 with
    | success u mo p => exact Or.inl ⟨u, mo, p, rfl⟩
    | failure e => exact Or.inr ⟨e, rfl⟩
  · cases h : (FalAIImageEditor.edit_image_qwen key vendor
        image_url prompt).1 with
    | success u mo p => exact Or.inl ⟨u, mo, p, rfl⟩
    | failure e => exact Or.inr ⟨e, rfl⟩
  · cases h : (FalAIImageEditor.remove_background key vendor
        image_url).1 with
    | success u mo p => exact Or.inl ⟨u, mo, p, rfl⟩
    | failure e => exact Or.inr ⟨e, rfl⟩
  · cases h : (FalAIImageEditor.upscale_image key vendor
        image_url scale).1 with
    | success u mo p => exact Or.inl ⟨u, mo, p, rfl⟩
    | failure e => exact Or.inr ⟨e, rfl⟩

/-- C4 counterexample: the claim says neither front-end lets an exception
escape its dispatch handler, but the `/edit/flux` route has no handler: with
`image_url` and `prompt` supplied and `strength = "abc"`, the
`float(data.get("strength", 0.8))` conversion raises and the exception
escapes the route (the model returns `.error`). -/
theorem C4_counterexample :
    create_http_app.edit_flux "k" (.raises "down")
      (some [("image_url", .vStr "http://x/img.png"), ("prompt", .vStr "p"),
        ("strength", .vStr "abc")])
      = .error "could not convert string to float: abc" := rfl

/-- C4 amended: the tool-protocol front-end catches any unexpected exception
raised during dispatch at its outermost handler and reports it as
`"Internal error: <message>"` with no vendor call; the HTTP front-end routes
have no such handler — `/edit/flux` and `/upscale` return normally exactly
when the `float(strength)` / `int(scale)` conversion succeeds (a failed
conversion escapes the route), while `/edit/qwen` and `/remove-bg` always
return normally. -/
theorem C4_amended_handlers (key e : String) (vendor : VendorOutcome)
    (name : String) (args : List (String × Value))
    (reqBody : Option (List (String × Value))) :
    handle_call_tool key vendor (some e) name args
      = ({ text := "Internal error: " ++ e, isError := true }, [])
  ∧ exceptOk (create_http_app.edit_flux key vendor reqBody)
      = exceptOk (pyFloat (dictGetD (reqBody.getD []) "strength" (.vRat (4 / 5))))
  ∧ exceptOk (create_http_app.upscale key vendor reqBody)
      = exceptOk (pyInt (dictGetD (reqBody.getD []) "scale" (.vInt 2)))
  ∧ exceptOk (create_http_app.edit_qwen key vendor reqBody) = true
  ∧ exceptOk (create_http_app.remove_bg key vendor reqBody) = true := by
  refine ⟨rfl, ?_, ?_, ?_, ?_⟩
  · cases hf : pyFloat (dictGetD (reqBody.getD []) "strength" (.vRat (4 / 5))) with
    | error e => simp [create_http_app.edit_flux, hf, exceptOk]
    | ok q =>
      simp only [create_http_app.edit_flux, hf]
      rw [apply_ite exceptOk]
      simp [exceptOk]
  · cases hs : pyInt (dictGetD (reqBody.getD []) "scale" (.vInt 2)) with
    | error e => simp [create_http_app.upscale, hs, exceptOk]
    | ok n =>
      simp only [create_http_app.upscale, hs]
      rw [apply_ite exceptOk]
      simp [exceptOk]
  · simp only [create_http_app.edit_qwen]
    rw [apply_ite exceptOk]
    simp [exceptOk]
  · simp only [create_http_app.remove_bg]
    rw [apply_ite exceptOk]
    simp [exceptOk]

/-- C5: invoking an unknown tool name on the tool-protocol front-end yields
an error result whose message is `"Error: Unknown tool '<name>'"`,
containing the requested name exactly, and no vendor call is made. -/
theorem C5_unknown_tool (key name : String) (vendor : VendorOutcome)
    (args : List (String × Value))
    (h1 : name ≠ "edit_image_flux") (h2 : name ≠ "edit_image_qwen")
    (h3 : name ≠ "remove_background") (h4 : name ≠ "upscale_image") :
    handle_call_tool key vendor none name args
      = ({ text := "Error: Unknown tool \x27" ++ name ++ "\x27", isError := true }, [])
  ∧ ∃ a b, "Error: Unknown tool \x27" ++ name ++ "\x27" = a ++ name ++ b := by
  refine ⟨?_, ⟨"Error: Unknown tool \x27", "\x27", rfl⟩⟩
  simp [handle_call_tool, h1, h2, h3, h4]

/-- C5 witness: instantiated at the unknown name `"foo"`. -/
theorem C5_unknown_tool_witness :
    (handle_call_tool "k" (.raises "x") none "foo" []
      = ({ text := "Error: Unknown tool \x27" ++ "foo" ++ "\x27", isError := true }, []))
  ∧ ∃ a b, "Error: Unknown tool \x27" ++ "foo" ++ "\x27" = a ++ "foo" ++ b :=
  C5_unknown_tool "k" "foo" (.raises "x") []
    (by decide) (by decide) (by decide) (by decide)

/-- C6: in the tool-protocol front-end, when a declared-required argument
(`image_url` for all four tools, additionally `prompt` for the two edit
tools) is absent from the argument mapping, the handler returns the error
result naming the missing requirement and issues no vendor call. -/
theorem C6_missing_required (key : String) (vendor : VendorOutcome)
    (args : List (String × Value)) :
    ((args.lookup "image_url" = none ∨ args.lookup "prompt" = none) →
      handle_call_tool key vendor none "edit_image_flux" args
        = ({ text := "Error: image_url and prompt are required", isError := true }, []))
  ∧ ((args.lookup "image_url" = none ∨ args.lookup "prompt" = none) →
      handle_call_tool key vendor none "edit_image_qwen" args
        = ({ text := "Error: image_url and prompt are required", isError := true }, []))
  ∧ (args.lookup "image_url" = none →
      handle_call_tool key vendor none "remove_background" args
        = ({ text := "Error: image_url is required", isError := true }, []))
  ∧ (args.lookup "image_url" = none →
      handle_call_tool key vendor none "upscale_image" args
        = ({ text := "Error: image_url is required", isError := true }, [])) := by
  refine ⟨?_, ?_, ?_, ?_⟩
  · intro h
    rcases h with h | h <;> simp [handle_call_tool, dictGet, h, truthy]
  · intro h
    rcases h with h | h <;> simp [handle_call_tool, dictGet, h, truthy]
  · intro h
    simp [handle_call_tool, dictGet, h, truthy]
  · intro h
    simp [handle_call_tool, dictGet, h, truthy]

/-- C6 witness: each tool invoked with a required argument absent (the edit
tools with `prompt` absent or everything absent, the other two with
`image_url` absent). -/
theorem C6_missing_required_witness :
    (handle_call_tool "k" (.raises "x") none "edit_image_flux"
        [("image_url", .vStr "u")]
      = ({ text := "Error: image_url and prompt are required", isError := true }, []))
  ∧ (handle_call_tool "k" (.raises "x") none "edit_image_qwen" []
      = ({ text := "Error: image_url and prompt are required", isError := true }, []))
  ∧ (handle_call_tool "k" (.raises "x") none "remove_background" []
      = ({ text := "Error: image_url is required", isError := true }, []))
  ∧ (handle_call_tool "k" (.raises "x") none "upscale_image"
        [("scale", .vInt 4)]
      = ({ text := "Error: image_url is required", isError := true }, [])) :=
  ⟨(C6_missing_required "k" (.raises "x") [("image_url", .vStr "u")]).1 (Or.inr rfl),
   (C6_missing_required "k" (.raises "x") []).2.1 (Or.inl rfl),
   (C6_missing_required "k" (.raises "x") []).2.2.1 rfl,
   (C6_missing_required "k" (.raises "x") [("scale", .vInt 4)]).2.2.2 rfl⟩

/-- C7 counterexample: the claim promises HTTP 400 for every body lacking
`image_url` or `prompt`, but the route converts `strength` with `float()`
before validating: the body `\x7b"strength": "abc"\x7d` lacks both required
fields yet the route raises instead of returning 400. -/
theorem C7_counterexample :
    create_http_app.edit_flux "k" (.raises "down") (some [("strength", .vStr "abc")])
      = .error "could not convert string to float: abc" := rfl

/-- C7 amended: a POST to `/edit/flux` whose body (malformed or absent
treated as the empty mapping) lacks `image_url` or `prompt`, and whose
`strength` entry (the default `0.8` when absent) converts to a float,
returns HTTP 400 with body exactly
`\x7b"success": false, "error": "image_url and prompt are required"\x7d`
and issues no vendor call. -/
theorem C7_missing_fields_400 (key : String) (q : Rat) (vendor : VendorOutcome)
    (reqBody : Option (List (String × Value)))
    (h1 : (reqBody.getD []).lookup "image_url" = none
          ∨ (reqBody.getD []).lookup "prompt" = none)
    (h2 : pyFloat (dictGetD (reqBody.getD []) "strength" (.vRat (4 / 5))) = .ok q) :
    create_http_app.edit_flux key vendor reqBody
      = .ok ({ status := 400, body := .vDict [("success", .vBool false),
          ("error", .vStr "image_url and prompt are required")] }, []) := by
  simp only [create_http_app.edit_flux, h2]
  rcases h1 with h | h <;> simp [dictGet, h, truthy]

/-- C7 witness: the spec's own example input, body
`\x7b"image_url": "http://x/img.png"\x7d` with no prompt. -/
theorem C7_missing_fields_400_witness :
    create_http_app.edit_flux "k" (.raises "x")
        (some [("image_url", .vStr "http://x/img.png")])
      = .ok ({ status := 400, body := .vDict [("success", .vBool false),
          ("error", .vStr "image_url and prompt are required")] }, []) :=
  C7_missing_fields_400 "k" (4 / 5) (.raises "x")
    (some [("image_url", .vStr "http://x/img.png")]) (Or.inr rfl) rfl

/-- C8: default substitution. A POST to `/upscale` with a truthy `image_url`
and no `scale` entry issues the vendor call with `scale = 2`; the
tool-protocol handler likewise substitutes `2` for an absent `scale` on
`upscale_image`, and `0.8` for an absent `strength` on `edit_image_flux`
(visible in the issued payloads). -/
theorem C8_defaults (key : String) (vendor : VendorOutcome)
    (body args fargs : List (String × Value))
    (hb1 : body.lookup "scale" = none)
    (hb2 : truthy (dictGet body "image_url") = true)
    (ha1 : args.lookup "scale" = none)
    (ha2 : truthy (dictGet args "image_url") = true)
    (hf1 : fargs.lookup "strength" = none)
    (hf2 : truthy (dictGet fargs "image_url") = true)
    (hf3 : truthy (dictGet fargs "prompt") = true) :
    (∃ resp, create_http_app.upscale key vendor (some body)
      = .ok (resp, [{ url := base_url ++ "/fal-ai/esrgan"
                      headers := authHeaders key
                      payload := [("image_url", dictGet body "image_url"),
                        ("scale", .vInt 2)] }]))
  ∧ (∃ r, handle_call_tool key vendor none "upscale_image" args
      = (r, [{ url := base_url ++ "/fal-ai/esrgan"
               headers := authHeaders key
               payload := [("image_url", dictGet args "image_url"),
                 ("scale", .vInt 2)] }]))
  ∧ (∃ r, handle_call_tool key vendor none "edit_image_flux" fargs
      = (r, [{ url := base_url ++ "/fal-ai/flux/dev/image-to-image"
               headers := authHeaders key
               payload := [("image_url", dictGet fargs "image_url"),
                 ("prompt", dictGet fargs "prompt"),
                 ("strength", .vRat (4 / 5)),
                 ("num_inference_steps", .vInt 28),
                 ("guidance_scale", .vRat (7 / 2))] }])) := by
  refine ⟨?_, ?_, ?_⟩
  · simp only [create_http_app.upscale, dictGetD, hb1, pyInt, Option.getD,
      hb2, Bool.not_true, Bool.false_eq_true, if_false]
    exact ⟨_, rfl⟩
  · simp only [handle_call_tool, dictGetD, ha1, ha2, Bool.not_true,
      Bool.false_eq_true, if_false, reduceIte, FalAIImageEditor.upscale_image]
    exact ⟨_, rfl⟩
  · simp only [handle_call_tool, dictGetD, hf1, hf2, hf3, Bool.not_true,
      Bool.or_self, Bool.false_eq_true, if_false, reduceIte,
      FalAIImageEditor.edit_image_flux]
    exact ⟨_, rfl⟩

/-- C8 witness: the spec's example, `image_url` supplied and the optional
argument absent, in the HTTP route and in both protocol dispatches. -/
theorem C8_defaults_witness :
    (∃ resp, create_http_app.upscale "k" (.raises "x")
        (some [("image_url", .vStr "http://x/img.png")])
      = .ok (resp, [{ url := base_url ++ "/fal-ai/esrgan"
                      headers := authHeaders "k"
                      payload := [("image_url",
                          dictGet [("image_url", .vStr "http://x/img.png")] "image_url"),
                        ("scale", .vInt 2)] }]))
  ∧ (∃ r, handle_call_tool "k" (.raises "x") none "upscale_image"
        [("image_url", .vStr "http://x/img.png")]
      = (r, [{ url := base_url ++ "/fal-ai/esrgan"
               headers := authHeaders "k"
               payload := [("image_url",
                   dictGet [("image_url", .vStr "http://x/img.png")] "image_url"),
                 ("scale", .vInt 2)] }]))
  ∧ (∃ r, handle_call_tool "k" (.raises "x") none "edit_image_flux"
        [("image_url", .vStr "http://x/img.png"), ("prompt", .vStr "p")]
      = (r, [{ url := base_url ++ "/fal-ai/flux/dev/image-to-image"
               headers := authHeaders "k"
               payload := [("image_url",
                   dictGet [("image_url", .vStr "http://x/img.png"),
                     ("prompt", .vStr "p")] "image_url"),
                 ("prompt",
                   dictGet [("image_url", .vStr "http://x/img.png"),
                     ("prompt", .vStr "p")] "prompt"),
                 ("strength", .vRat (4 / 5)),
                 ("num_inference_steps", .vInt 28),
                 ("guidance_scale", .vRat (7 / 2))] }])) :=
  C8_defaults "k" (.raises "x")
    [("image_url", .vStr "http://x/img.png")]
    [("image_url", .vStr "http://x/img.png")]
    [("image_url", .vStr "http://x/img.png"), ("prompt", .vStr "p")]
    rfl (by decide) rfl (by decide) rfl (by decide) (by decide)

/-- C9: `GET /health` returns status 200 with body
`\x7b"ok": true, "service": "fal-ai-mcp-http"\x7d` for every API key, and
issues no vendor call. -/
theorem C9_health (key : String) :
    create_http_app.health key
      = ({ status := 200
           body := .vDict [("ok", .vBool true),
             ("service", .vStr "fal-ai-mcp-http")] }, []) := rfl

/-- An absent argument (`None`) is falsy. -/
theorem truthy_vNone : truthy .vNone = false := rfl

/-- C10: required-argument validation is by truthiness, not key presence:
a supplied-but-falsy required argument is rejected exactly as if absent.
In the tool-protocol handler a falsy `image_url` (or `prompt` for the edit
tools) produces the same error result as omitting the key — and the result
equals the handler's output on the mapping without the key; on the HTTP
`/edit/flux` route a falsy `image_url` yields the same 400 response as an
absent one.  No vendor call is made in any of these cases. -/
theorem C10_falsy_is_missing (key : String) (vendor : VendorOutcome)
    (v p : Value) (hv : truthy v = false) (hp : truthy p = true) :
    (handle_call_tool key vendor none "edit_image_flux"
        [("image_url", v), ("prompt", p)]
      = handle_call_tool key vendor none "edit_image_flux" [("prompt", p)])
  ∧ (handle_call_tool key vendor none "edit_image_flux"
        [("image_url", v), ("prompt", p)]
      = ({ text := "Error: image_url and prompt are required", isError := true }, []))
  ∧ (handle_call_tool key vendor none "edit_image_flux"
        [("image_url", p), ("prompt", v)]
      = ({ text := "Error: image_url and prompt are required", isError := true }, []))
  ∧ (handle_call_tool key vendor none "edit_image_qwen"
        [("image_url", p), ("prompt", v)]
      = ({ text := "Error: image_url and prompt are required", isError := true }, []))
  ∧ (handle_call_tool key vendor none "remove_background" [("image_url", v)]
      = ({ text := "Error: image_url is required", isError := true }, []))
  ∧ (handle_call_tool key vendor none "upscale_image" [("image_url", v)]
      = ({ text := "Error: image_url is required", isError := true }, []))
  ∧ (create_http_app.edit_flux key vendor (some [("image_url", v), ("prompt", p)])
      = create_http_app.edit_flux key vendor (some [("prompt", p)]))
  ∧ (create_http_app.edit_flux key vendor (some [("image_url", v), ("prompt", p)])
      = .ok ({ status := 400, body := .vDict [("success", .vBool false),
          ("error", .vStr "image_url and prompt are required")] }, []))
  ∧ (create_http_app.upscale key vendor (some [("image_url", v)])
      = .ok ({ status := 400, body := .vDict [("success", .vBool false),
          ("error", .vStr "image_url is required")] }, [])) := by
  refine ⟨?_, ?_, ?_, ?_, ?_, ?_, ?_, ?_, ?_⟩ <;>
    simp [handle_call_tool, create_http_app.edit_flux, create_http_app.upscale,
      dictGet, dictGetD, List.lookup, hv, hp, truthy_vNone, pyFloat, pyInt]

/-- C10 witness: the falsy supplied value is the empty string, the truthy
companion a nonempty prompt. -/
theorem C10_falsy_is_missing_witness :
    (handle_call_tool "k" (.raises "x") none "edit_image_flux"
        [("image_url", .vStr ""), ("prompt", .vStr "p")]
      = handle_call_tool "k" (.raises "x") none "edit_image_flux"
          [("prompt", .vStr "p")])
  ∧ (handle_call_tool "k" (.raises "x") none "edit_image_flux"
        [("image_url", .vStr ""), ("prompt", .vStr "p")]
      = ({ text := "Error: image_url and prompt are required", isError := true }, []))
  ∧ (handle_call_tool "k" (.raises "x") none "edit_image_flux"
        [("image_url", .vStr "p"), ("prompt", .vStr "")]
      = ({ text := "Error: image_url and prompt are required", isError := true }, []))
  ∧ (handle_call_tool "k" (.raises "x") none "edit_image_qwen"
        [("image_url", .vStr "p"), ("prompt", .vStr "")]
      = ({ text := "Error: image_url and prompt are required", isError := true }, []))
  ∧ (handle_call_tool "k" (.raises "x") none "remove_background"
        [("image_url", .vStr "")]
      = ({ text := "Error: image_url is required", isError := true }, []))
  ∧ (handle_call_tool "k" (.raises "x") none "upscale_image"
        [("image_url", .vStr "")]
      = ({ text := "Error: image_url is required", isError := true }, []))
  ∧ (create_http_app.edit_flux "k" (.raises "x")
        (some [("image_url", .vStr ""), ("prompt", .vStr "p")])
      = create_http_app.edit_flux "k" (.raises "x") (some [("prompt", .vStr "p")]))
  ∧ (create_http_app.edit_flux "k" (.raises "x")
        (some [("image_url", .vStr ""), ("prompt", .vStr "p")])
      = .ok ({ status := 400, body := .vDict [("success", .vBool false),
          ("error", .vStr "image_url and prompt are required")] }, []))
  ∧ (create_http_app.upscale "k" (.raises "x") (some [("image_url", .vStr "")])
      = .ok ({ status := 400, body := .vDict [("success", .vBool false),
          ("error", .vStr "image_url is required")] }, [])) :=
  C10_falsy_is_missing "k" (.raises "x") (.vStr "") (.vStr "p")
    (by decide) (by decide)

end Fal
